import Mathlib

/-!
Verification of the seedclub/pi-extension Telegram scripts.

This file shallowly embeds the watermark store (`_watermarks.py`), the
watermark-driven digest (`digest.py`), the login state machine (`login.py`)
and the date / loader utilities (`_client.py`) as executable Lean
definitions, and proves the frozen behavioural claims about them.

Conventions used throughout:
* Python `dict` objects with string keys are modelled as association lists
  (`List (String × V)`): an in-place overwrite keeps the key's position and
  a fresh key is appended at the end, exactly like insertion-ordered dicts.
* Effectful functions are modelled as pure functions over an explicit store
  argument; network calls are modelled by oracle parameters supplying the
  remote service's response.
* A value that may be an `int` or a `str` in Python (a chat-id argument) is
  modelled by `PyKey`; `pyStrOf` is Python's `str()` on it.
-/

/-! ### Python string primitives -/

/-- Python `s.lower()`, character by character (ASCII-relevant part). -/
def pyLower (s : String) : String := ⟨s.data.map Char.toLower⟩

/-- Python `s.lstrip("@")`: drop every leading `'@'`. -/
def lstripAt (s : String) : String := ⟨s.data.dropWhile (· = '@')⟩

/-- `needle` occurs as a contiguous sublist of `hay`. -/
def listContainsSub (hay needle : List Char) : Bool :=
  match hay with
  | [] => needle.isEmpty
  | _ :: tl => needle.isPrefixOf hay || listContainsSub tl needle

/-- Python `needle in hay` for strings (substring containment). -/
def strContainsSub (hay needle : String) : Bool :=
  listContainsSub hay.data needle.data

/-- Python `c in s` for a single character `c`. -/
def pyContainsChar (s : String) (c : Char) : Bool := s.data.contains c

/-- A Python value that is either an `int` or a `str` (a chat-id argument). -/
inductive PyKey where
  | int (n : Int)
  | str (s : String)
deriving Repr, DecidableEq

/-- Python `str()` applied to a `PyKey`. -/
def pyStrOf : PyKey → String
  | .int n => toString n
  | .str s => s

/-! ### Insertion-ordered string-keyed dict -/

/-- Python `d.get(k)` / `d[k]` lookup on an insertion-ordered dict. -/
def dictGet {V : Type} : List (String × V) → String → Option V
  | [], _ => none
  | (k', v) :: rest, k => if k' = k then some v else dictGet rest k

/-- Python `d[k] = v` on an insertion-ordered dict: overwrite in place,
or append a fresh key at the end. -/
def dictSet {V : Type} : List (String × V) → String → V → List (String × V)
  | [], k, v => [(k, v)]
  | (k', v') :: rest, k, v =>
      if k' = k then (k, v) :: rest else (k', v') :: dictSet rest k v

theorem dictGet_dictSet_self {V : Type} (m : List (String × V)) (k : String) (v : V) :
    dictGet (dictSet m k v) k = some v := by
  induction m with
  | nil => simp [dictGet, dictSet]
  | cons hd tl ih =>
      obtain ⟨k', v'⟩ := hd
      by_cases h : k' = k
      · simp [dictGet, dictSet, h]
      · simp [dictGet, dictSet, h, ih]

theorem dictGet_dictSet_ne {V : Type} (m : List (String × V)) (k k' : String) (v : V)
    (h : k' ≠ k) : dictGet (dictSet m k v) k' = dictGet m k' := by
  induction m with
  | nil => simp [dictGet, dictSet, Ne.symm h]
  | cons hd tl ih =>
      obtain ⟨k0, v0⟩ := hd
      by_cases h0 : k0 = k
      · subst h0
        simp [dictGet, dictSet, Ne.symm h]
      · by_cases h1 : k0 = k'
        · simp [dictGet, dictSet, h0, h1, h]
        · simp [dictGet, dictSet, h0, h1, ih]

/-! ### Watermark store (`_watermarks.py`), well-shaped entries

`set_watermark` / `set_watermarks_batch` always write entries of the shape
`{ lastMessageId, lastRunAt, chatName }`; this typed model captures the
store as maintained by the code's own write operations.  The file itself
is passed around explicitly as the store value (`load_watermarks` /
`save_watermarks` become the function's input and output). -/

structure WatermarkEntry where
  lastMessageId : Nat
  lastRunAt : String
  chatName : Option String
deriving Repr, DecidableEq

/-- The watermarks mapping `{ str(chatId) : entry }`. -/
abbrev Watermarks := List (String × WatermarkEntry)

/-- One element of the `updates` list of `set_watermarks_batch`:
`{ chatId, messageId, chatName? }` (`chatName` read with `.get`). -/
structure WatermarkUpdate where
  chatId : PyKey
  messageId : Nat
  chatName : Option String
deriving Repr, DecidableEq

/-- `get_watermark(chat_id)`: look up `str(chat_id)` and return the entry's
`lastMessageId` (an entry written by this module is a non-empty dict, so
the `if entry and isinstance(entry, dict)` guard passes). -/
def get_watermark (wm : Watermarks) (chat_id : PyKey) : Option Nat :=
  (dictGet wm (pyStrOf chat_id)).map (·.lastMessageId)

/-- `set_watermark(chat_id, message_id, chat_name)`: store a fresh entry
under `str(chat_id)`; `now` is `datetime.now(timezone.utc).isoformat()`. -/
def set_watermark (now : String) (wm : Watermarks) (chat_id : PyKey)
    (message_id : Nat) (chat_name : Option String) : Watermarks :=
  dictSet wm (pyStrOf chat_id) ⟨message_id, now, chat_name⟩

/-- `set_watermarks_batch(updates)`: fold the updates over the store, each
keyed by `str(u["chatId"])`, all stamped with the same `now`. -/
def set_watermarks_batch (now : String) (wm : Watermarks)
    (updates : List WatermarkUpdate) : Watermarks :=
  updates.foldl (fun acc u => dictSet acc (pyStrOf u.chatId)
    ⟨u.messageId, now, u.chatName⟩) wm

/-- The last update of the batch whose `str(chatId)` equals `k` (a later
update for the same key overwrites an earlier one). -/
def lastUpdateFor (k : String) : List WatermarkUpdate → Option WatermarkUpdate
  | [] => none
  | u :: us =>
      match lastUpdateFor k us with
      | some u' => some u'
      | none => if pyStrOf u.chatId = k then some u else none

theorem lastUpdateFor_mem {k : String} {us : List WatermarkUpdate} {u : WatermarkUpdate}
    (h : lastUpdateFor k us = some u) : u ∈ us ∧ pyStrOf u.chatId = k := by
  induction us with
  | nil => simp [lastUpdateFor] at h
  | cons hd tl ih =>
      simp only [lastUpdateFor] at h
      cases htl : lastUpdateFor k tl with
      | some u' =>
          rw [htl] at h
          obtain ⟨hmem, hkey⟩ := ih (htl.trans (by injection h with h; rw [h]))
          exact ⟨List.mem_cons_of_mem _ hmem, hkey⟩
      | none =>
          rw [htl] at h
          by_cases hk : pyStrOf hd.chatId = k
          · simp [hk] at h
            exact ⟨by simp [← h], h ▸ hk⟩
          · simp [hk] at h

theorem lastUpdateFor_eq_none {k : String} {us : List WatermarkUpdate}
    (h : ∀ u ∈ us, pyStrOf u.chatId ≠ k) : lastUpdateFor k us = none := by
  induction us with
  | nil => rfl
  | cons hd tl ih =>
      simp only [lastUpdateFor]
      rw [ih (fun u hu => h u (List.mem_cons_of_mem _ hu))]
      simp [h hd (List.mem_cons_self _ _)]

theorem lastUpdateFor_isSome {k : String} {us : List WatermarkUpdate} {u : WatermarkUpdate}
    (hu : u ∈ us) (hk : pyStrOf u.chatId = k) : ∃ u', lastUpdateFor k us = some u' := by
  induction us with
  | nil => simp at hu
  | cons hd tl ih =>
      simp only [lastUpdateFor]
      cases htl : lastUpdateFor k tl with
      | some u' => exact ⟨u', rfl⟩
      | none =>
          rcases List.mem_cons.mp hu with h | h
          · subst h
            simp [hk]
          · rcases ih h with ⟨u', hu'⟩
            rw [htl] at hu'
            exact absurd hu' (by simp)

/-- The value `set_watermarks_batch` leaves at key `k`: untouched when no
update targets `k`, otherwise the full entry of the last update for `k`. -/
theorem dictGet_set_watermarks_batch (now : String) (us : List WatermarkUpdate)
    (wm : Watermarks) (k : String) :
    dictGet (set_watermarks_batch now wm us) k =
      match lastUpdateFor k us with
      | some u => some ⟨u.messageId, now, u.chatName⟩
      | none => dictGet wm k := by
  induction us generalizing wm with
  | nil => rfl
  | cons u us ih =>
      show dictGet (set_watermarks_batch now
        (dictSet wm (pyStrOf u.chatId) ⟨u.messageId, now, u.chatName⟩) us) k = _
      rw [ih]
      cases htl : lastUpdateFor k us with
      | some u' => simp [lastUpdateFor, htl]
      | none =>
          by_cases hk : pyStrOf u.chatId = k
          · subst hk
            simp [lastUpdateFor, htl, dictGet_dictSet_self]
          · simp [lastUpdateFor, htl, hk, dictGet_dictSet_ne _ _ _ _ (Ne.symm hk)]

/-! ### Python `max` over a non-empty list of naturals -/

/-- Python `max(xs)` for a non-empty list of naturals (`max 0 x = x`, so the
`0` seed is inert on the first element). -/
def pyMax (xs : List Nat) : Nat := xs.foldl Nat.max 0

theorem foldl_max_acc (xs : List Nat) (a : Nat) :
    xs.foldl Nat.max a = Nat.max a (xs.foldl Nat.max 0) := by
  induction xs generalizing a with
  | nil => simp
  | cons x xs ih =>
      simp only [List.foldl_cons]
      rw [ih (Nat.max a x), ih (Nat.max 0 x)]
      simp [Nat.max_assoc]

theorem pyMax_cons (x : Nat) (xs : List Nat) :
    pyMax (x :: xs) = Nat.max x (pyMax xs) := by
  unfold pyMax
  simp only [List.foldl_cons]
  rw [foldl_max_acc]
  simp

theorem pyMax_reverse (xs : List Nat) : pyMax xs.reverse = pyMax xs := by
  induction xs with
  | nil => rfl
  | cons x xs ih =>
      rw [List.reverse_cons, pyMax_cons]
      show List.foldl Nat.max 0 (xs.reverse ++ [x]) = _
      rw [List.foldl_append]
      simp only [List.foldl_cons, List.foldl_nil]
      rw [show List.foldl Nat.max 0 xs.reverse = pyMax xs.reverse from rfl, ih]
      exact Nat.max_comm _ _

theorem pyMax_mem (xs : List Nat) (h : xs ≠ []) : pyMax xs ∈ xs := by
  induction xs with
  | nil => exact absurd rfl h
  | cons x xs ih =>
      rw [pyMax_cons]
      cases xs with
      | nil => simp [pyMax]
      | cons y ys =>
          rcases Nat.le_total x (pyMax (y :: ys)) with hc | hc
          · rw [show Nat.max x (pyMax (y :: ys)) = pyMax (y :: ys) from max_eq_right hc]
            exact List.mem_cons_of_mem _ (ih (by simp))
          · rw [show Nat.max x (pyMax (y :: ys)) = x from max_eq_left hc]
            exact List.mem_cons_self _ _

/-! ### Digest (`digest.py`)

`run_digest` is modelled as a pure function: the connected client is
replaced by the list of dialogs it would return and by a `fetch` oracle
giving, per entity id, message cap and optional `min_id`, the outcome of
`client.get_messages`.  A message is reduced to its id (`format_message`
keeps `str(msg.id)`, and `int(str(n)) = n`, so ids pass through intact). -/

/-- A Telethon message, reduced to the field the digest computes with. -/
structure Msg where
  id : Nat
deriving Repr, DecidableEq

/-- A dialog as returned by `client.get_dialogs`: entity id, display name
(`d.name`, may be `None` or empty), optional username, unread count. -/
structure Dialog where
  entityId : Int
  name : Option String
  username : Option String
  unreadCount : Nat
deriving Repr, DecidableEq

/-- Outcome of one `client.get_messages(entity, limit=…, [min_id=…])` call:
the (newest-first) message list, a `FloodWaitError`, or another exception. -/
inductive FetchOutcome where
  | ok (msgs : List Msg)
  | floodWait (seconds : Nat)
  | err (msg : String)
deriving Repr, DecidableEq

/-- `d.name or "Unknown"` (Python truthiness: `None` and `""` fall back). -/
def chatNameOf (d : Dialog) : String :=
  match d.name with
  | some s => if s = "" then "Unknown" else s
  | none => "Unknown"

/-- `if chat_filter:` — Python truthiness of the optional list. -/
def filterActive : Option (List String) → Bool
  | none => false
  | some [] => false
  | some (_ :: _) => true

/-- One iteration of the `for f in chat_filter` matching loop:
`chat_name.lower() == fl or fl in chat_name.lower()`, else the
`@`-stripped term equals a non-empty username case-insensitively. -/
def filterTermMatch (d : Dialog) (chat_name f : String) : Bool :=
  (pyLower chat_name == pyLower f || strContainsSub (pyLower chat_name) (pyLower f)) ||
  (match d.username with
   | some u => (u != "") && (pyLower (lstripAt f) == pyLower u)
   | none => false)

/-- The candidate-selection decision for one dialog (the body of the first
loop of `run_digest`, up to `continue`): with an active filter, keep iff
some term matches; otherwise keep iff unread, or include-read and
watermarked. -/
def dialogSelected (chat_filter : Option (List String)) (include_read : Bool)
    (watermarks : Watermarks) (d : Dialog) : Bool :=
  let chat_id := toString d.entityId
  let chat_name := chatNameOf d
  let has_watermark := (dictGet watermarks chat_id).isSome
  let has_unread := decide (0 < d.unreadCount)
  if filterActive chat_filter then
    (chat_filter.getD []).any (fun f => filterTermMatch d chat_name f)
  else
    has_unread || (include_read && has_watermark)

/-- The per-chat record accumulated in `chats_to_process`. -/
structure SelChat where
  dialog : Dialog
  chatId : String
  chatName : String
  unreadCount : Nat
  hasWatermark : Bool
  watermarkMessageId : Option Nat
deriving Repr, DecidableEq

/-- The record pushed onto `chats_to_process` for a kept dialog
(`watermarkMessageId` is `watermarks.get(chat_id, {}).get("lastMessageId")`). -/
def mkSelChat (watermarks : Watermarks) (d : Dialog) : SelChat :=
  { dialog := d
    chatId := toString d.entityId
    chatName := chatNameOf d
    unreadCount := d.unreadCount
    hasWatermark := (dictGet watermarks (toString d.entityId)).isSome
    watermarkMessageId :=
      (dictGet watermarks (toString d.entityId)).map (·.lastMessageId) }

/-- The first loop of `run_digest`: keep the dialogs `dialogSelected`
accepts, in order. -/
def selectChats (chat_filter : Option (List String)) (include_read : Bool)
    (watermarks : Watermarks) (dialogs : List Dialog) : List SelChat :=
  dialogs.filterMap (fun d =>
    if dialogSelected chat_filter include_read watermarks d
    then some (mkSelChat watermarks d) else none)

/-- `min_id` argument: passed only `if wm_msg_id:` (so neither for a missing
watermark nor for a zero one — Python truthiness of `None` and `0`). -/
def minIdArg : Option Nat → Option Nat
  | some w => if w = 0 then none else some w
  | none => none

/-- One element of the output `chats` list: either the error record built
on a per-chat fetch failure, or the fetched record with chronological
message ids, count and previous watermark. -/
inductive ChatReport where
  | failed (chatId chatName errMsg : String)
  | fetched (chatId chatName : String) (username : Option String)
      (messageIds : List Nat) (newCount : Nat) (previousWatermark : Option Nat)
deriving Repr, DecidableEq

/-- Accumulators of the second loop of `run_digest`. -/
structure ProcAcc where
  reports : List ChatReport
  updates : List WatermarkUpdate
  totalNew : Nat
deriving Repr, DecidableEq

/-- The second loop of `run_digest`: fetch each selected chat, skip empty
batches, record per-chat errors without aborting, accumulate the
chronological (reversed) messages, the running total and the watermark
update carrying the batch's maximum message id. -/
def processChats (fetch : Int → Nat → Option Nat → FetchOutcome) (limit : Nat) :
    List SelChat → ProcAcc
  | [] => ⟨[], [], 0⟩
  | c :: rest =>
      let tail := processChats fetch limit rest
      match fetch c.dialog.entityId limit (minIdArg c.watermarkMessageId) with
      | .floodWait s =>
          ⟨.failed c.chatId c.chatName ("Rate limited (" ++ toString s ++ "s)")
              :: tail.reports,
            tail.updates, tail.totalNew⟩
      | .err e =>
          ⟨.failed c.chatId c.chatName e :: tail.reports, tail.updates, tail.totalNew⟩
      | .ok msgs =>
          if msgs.isEmpty then tail
          else
            let formatted := msgs.reverse
            let maxMsgId := pyMax (formatted.map Msg.id)
            ⟨.fetched c.chatId c.chatName c.dialog.username (formatted.map Msg.id)
                formatted.length c.watermarkMessageId :: tail.reports,
              ⟨.str c.chatId, maxMsgId, some c.chatName⟩ :: tail.updates,
              formatted.length + tail.totalNew⟩

/-- The JSON object printed on the non-empty path. -/
structure DigestOutput where
  chats : List ChatReport
  chatCount : Nat
  totalNewMessages : Nat
  watermarksUpdated : Bool
  dryRun : Bool
deriving Repr, DecidableEq

/-- The result of a digest run: the early `"No chats with new messages"`
output, or the full output object. -/
inductive DigestResult where
  | noChats
  | ran (out : DigestOutput)
deriving Repr, DecidableEq

/-- `run_digest`, as a pure function from the loaded watermark store, the
dialog list and the fetch oracle to the printed result and the store as
persisted at exit (unchanged on dry-run, empty update list or early
return). -/
def run_digest (now : String) (fetch : Int → Nat → Option Nat → FetchOutcome)
    (chat_filter : Option (List String)) (limit_per_chat : Nat)
    (include_read dry_run : Bool) (dialogs : List Dialog)
    (watermarks : Watermarks) : DigestResult × Watermarks :=
  let sel := selectChats chat_filter include_read watermarks dialogs
  if sel.isEmpty then (.noChats, watermarks)
  else
    let acc := processChats fetch limit_per_chat sel
    let doUpdate := !dry_run && !acc.updates.isEmpty
    let wm' := if doUpdate then set_watermarks_batch now watermarks acc.updates
               else watermarks
    (.ran ⟨acc.reports, acc.reports.length, acc.totalNew, doUpdate, dry_run⟩, wm')

/-- Every selected chat is built by `mkSelChat` from some dialog. -/
theorem mem_selectChats {cf : Option (List String)} {ir : Bool} {wm : Watermarks}
    {dialogs : List Dialog} {c : SelChat} (h : c ∈ selectChats cf ir wm dialogs) :
    ∃ d ∈ dialogs, c = mkSelChat wm d := by
  unfold selectChats at h
  rcases List.mem_filterMap.mp h with ⟨d, hd, hc⟩
  refine ⟨d, hd, ?_⟩
  by_cases hs : dialogSelected cf ir wm d
  · simp [hs] at hc
    exact hc.symm
  · simp [hs] at hc

/-- Every watermark update produced by the fetch loop comes from a selected
chat whose fetch succeeded with a non-empty batch, and carries that batch's
maximum message id keyed by the chat's id string. -/
theorem mem_updates_processChats {fetch : Int → Nat → Option Nat → FetchOutcome}
    {limit : Nat} {sel : List SelChat} {u : WatermarkUpdate}
    (h : u ∈ (processChats fetch limit sel).updates) :
    ∃ c ∈ sel, ∃ msgs, fetch c.dialog.entityId limit (minIdArg c.watermarkMessageId)
        = .ok msgs ∧ msgs ≠ [] ∧
        u = ⟨.str c.chatId, pyMax (msgs.reverse.map Msg.id), some c.chatName⟩ := by
  induction sel with
  | nil => simp [processChats] at h
  | cons c rest ih =>
      simp only [processChats] at h
      split at h
      · rcases ih h with ⟨c', hc', rest'⟩
        exact ⟨c', List.mem_cons_of_mem _ hc', rest'⟩
      · rcases ih h with ⟨c', hc', rest'⟩
        exact ⟨c', List.mem_cons_of_mem _ hc', rest'⟩
      · rename_i msgs hf
        split at h
        · rcases ih h with ⟨c', hc', rest'⟩
          exact ⟨c', List.mem_cons_of_mem _ hc', rest'⟩
        · rename_i hE
          rcases List.mem_cons.mp h with h | h
          · exact ⟨c, List.mem_cons_self _ _, msgs, hf,
              fun hnil => hE (by simp [hnil]), h⟩
          · rcases ih h with ⟨c', hc', rest'⟩
            exact ⟨c', List.mem_cons_of_mem _ hc', rest'⟩

/-! ### Login state machine (`login.py`)

`cmd_sign_in` / `cmd_sign_in_2fa` are modelled as pure transitions over the
persisted files (`pending.json`, `session.json`), with the remote service's
response supplied as an oracle value.  `error(...)` / `output(...)` become
the returned `CmdResult`. -/

/-- `pending.json`: `{phone, phoneCodeHash, sessionString, apiId, apiHash,
phase?}` — `phase` is absent after phase 1 and `"2fa"` after a
password-needed phase 2. -/
structure PendingLogin where
  phone : String
  phoneCodeHash : String
  sessionString : String
  apiId : Int
  apiHash : String
  phase : Option String
deriving Repr, DecidableEq

/-- `session.json`: `{apiId, apiHash, phone, sessionString, authenticatedAt}`. -/
structure Session where
  apiId : Int
  apiHash : String
  phone : String
  sessionString : String
  authenticatedAt : String
deriving Repr, DecidableEq

/-- The authenticated user returned by `client.get_me()`. -/
structure Profile where
  id : Int
  firstName : Option String
  lastName : Option String
  username : Option String
deriving Repr, DecidableEq

/-- The two persisted files the login flow owns. -/
structure LoginStore where
  pending : Option PendingLogin
  session : Option Session
deriving Repr, DecidableEq

/-- Response of the service to `client.sign_in(phone, code, …)`: success
(with the post-sign-in serialized session and the profile), the
`SessionPasswordNeededError` carrying the new mid-handshake session string,
`PhoneCodeInvalidError`, `PhoneCodeExpiredError`, or another exception. -/
inductive SignInOutcome where
  | success (finalSession : String) (me : Profile)
  | passwordNeeded (newSession : String)
  | invalidCode
  | codeExpired
  | otherError (msg : String)
deriving Repr, DecidableEq

/-- Response of the service to `client.sign_in(password=…)`. -/
inductive PasswordOutcome where
  | success (finalSession : String) (me : Profile)
  | invalidPassword
  | otherError (msg : String)
deriving Repr, DecidableEq

/-- The JSON printed by the sign-in commands on the success paths. -/
inductive LoginOutput where
  | twoFARequired
  | signedIn (phone name : String) (username : Option String) (userId : String)
deriving Repr, DecidableEq

/-- A script's observable exit: `output(data)` (exit 0) or
`error(msg, code)` (exit 1). -/
inductive CmdResult where
  | ok (out : LoginOutput)
  | err (msg code : String)
deriving Repr, DecidableEq

/-- `" ".join(p for p in [first or "", last or ""] if p)`. -/
def joinName (firstName lastName : Option String) : String :=
  String.intercalate " "
    (([firstName.getD "", lastName.getD ""]).filter (fun p => p ≠ ""))

/-- `cmd_sign_in(code)` as a transition on the persisted store.  `now` is
the `authenticatedAt` timestamp, `connectOk` whether `client.connect()`
succeeds, `outcome` the service's response to `sign_in`; `code` itself is
only forwarded to the service. -/
def cmd_sign_in (now : String) (connectOk : Bool) (outcome : SignInOutcome)
    (_code : String) (store : LoginStore) : LoginStore × CmdResult :=
  match store.pending with
  | none => (store,
      .err "No pending login session found. Run 'login.py request-code' first."
        "NO_PENDING")
  | some pending =>
      if !connectOk then
        (store, .err "Failed to connect to Telegram" "CONNECTION_ERROR")
      else
        match outcome with
        | .passwordNeeded newSession =>
            let pending2 : PendingLogin :=
              { pending with sessionString := newSession, phase := some "2fa" }
            ({ store with pending := some pending2 }, .ok .twoFARequired)
        | .invalidCode =>
            (store, .err "Invalid verification code." "INVALID_CODE")
        | .codeExpired =>
            ({ store with pending := none },
             .err "Verification code expired. Run /telegram-login again." "CODE_EXPIRED")
        | .otherError e =>
            (store, .err ("Sign-in failed: " ++ e) "SIGN_IN_ERROR")
        | .success finalSession me =>
            ({ pending := none,
               session := some ({ apiId := pending.apiId, apiHash := pending.apiHash,
                                  phone := pending.phone, sessionString := finalSession,
                                  authenticatedAt := now }) },
             .ok (.signedIn pending.phone (joinName me.firstName me.lastName)
                me.username (toString me.id)))

/-- `cmd_sign_in_2fa(password)` as a transition on the persisted store.
The phase check runs before any connection is opened. -/
def cmd_sign_in_2fa (now : String) (connectOk : Bool) (outcome : PasswordOutcome)
    (_password : String) (store : LoginStore) : LoginStore × CmdResult :=
  match store.pending with
  | none => (store,
      .err "No pending login session found. Run 'login.py request-code' first."
        "NO_PENDING")
  | some pending =>
      if pending.phase ≠ some "2fa" then
        (store, .err "Not in 2FA state. Run 'login.py request-code' to start over."
          "NOT_IN_2FA")
      else if !connectOk then
        (store, .err "Failed to connect to Telegram" "CONNECTION_ERROR")
      else
        match outcome with
        | .invalidPassword =>
            (store, .err "Invalid 2FA password." "INVALID_2FA")
        | .otherError e =>
            (store, .err ("2FA sign-in failed: " ++ e) "SIGN_IN_ERROR")
        | .success finalSession me =>
            ({ pending := none,
               session := some ({ apiId := pending.apiId, apiHash := pending.apiHash,
                                  phone := pending.phone, sessionString := finalSession,
                                  authenticatedAt := now }) },
             .ok (.signedIn pending.phone (joinName me.firstName me.lastName)
                me.username (toString me.id)))

/-! ### Untyped loaders (`load_watermarks` / `get_watermark`,
`load_pending`, `load_session`) over arbitrary file contents

`json.loads` on an arbitrary byte string either raises
`json.JSONDecodeError` or yields some JSON value, so a file is modelled by
`FileContent`; operations that Python would crash on (attribute errors on a
non-dict) are modelled by the `fault` constructor. -/

/-- A parsed JSON / Python value. -/
inductive PyVal where
  | pyNull
  | pyBool (b : Bool)
  | pyInt (n : Int)
  | pyStr (s : String)
  | pyList (elems : List PyVal)
  | pyObj (fields : List (String × PyVal))

/-- Python truthiness of a value (`if entry`, `if not data.get(…)`). -/
def PyVal.truthy : PyVal → Bool
  | .pyNull => false
  | .pyBool b => b
  | .pyInt n => n != 0
  | .pyStr s => s != ""
  | .pyList xs => !xs.isEmpty
  | .pyObj kvs => !kvs.isEmpty

/-- A persisted file: missing, unparsable by `json.loads`, or holding a
parsed JSON value. -/
inductive FileContent where
  | absent
  | invalidJson
  | jsonVal (v : PyVal)

/-- Result of an expression that may raise an uncaught exception. -/
inductive PyOutcome (α : Type) where
  | ok (a : α)
  | fault (msg : String)

/-- Result of a loader: the loaded value, a structured `error(msg, code)`
exit, or an uncaught exception. -/
inductive LoadOutcome (α : Type) where
  | ok (a : α)
  | exit (msg code : String)
  | fault (msg : String)

/-- `load_watermarks()`: `{}` for a missing file or a
`json.JSONDecodeError`/`OSError`, otherwise whatever value the file parses
to (no shape check). -/
def load_watermarks_json : FileContent → PyVal
  | .absent => .pyObj []
  | .invalidJson => .pyObj []
  | .jsonVal v => v

/-- `get_watermark(chat_id)` over an arbitrary store file: `wm.get(str(chat_id))`
is an `AttributeError` when the parsed store is not a dict; an entry that is
falsy or not a dict yields `None`, otherwise `entry.get("lastMessageId")`. -/
def get_watermark_json (fc : FileContent) (chat_id : PyKey) : PyOutcome (Option PyVal) :=
  match load_watermarks_json fc with
  | .pyObj kvs =>
      match dictGet kvs (pyStrOf chat_id) with
      | some (.pyObj ekvs) =>
          if !ekvs.isEmpty then .ok (dictGet ekvs "lastMessageId") else .ok none
      | some _ => .ok none
      | none => .ok none
  | _ => .fault "AttributeError: no attribute get"

/-- `load_pending()`: `error(..., "NO_PENDING")` for a missing file, and for
any parse failure (the `except Exception` arm); otherwise the parsed value,
whatever its shape. -/
def load_pending_json : FileContent → LoadOutcome PyVal
  | .absent =>
      .exit "No pending login session found. Run 'login.py request-code' first."
        "NO_PENDING"
  | .invalidJson =>
      .exit "Corrupt pending session. Run 'login.py request-code' again." "NO_PENDING"
  | .jsonVal _v =>
      .ok _v

/-- `data.get(k)` with default `None`, for the session shape checks. -/
def pyObjGetD (kvs : List (String × PyVal)) (k : String) : PyVal :=
  (dictGet kvs k).getD .pyNull

/-- `load_session()`: missing → `NOT_CONNECTED`; `json.JSONDecodeError` →
`INVALID_SESSION`; a parsed non-dict hits `data.get(…)` and raises an
uncaught `AttributeError` (only `JSONDecodeError` is handled); a dict with
a falsy `sessionString`/`apiId`/`apiHash` → `INVALID_SESSION`. -/
def load_session_json : FileContent → LoadOutcome PyVal
  | .absent =>
      .exit "Not connected to Telegram. Run /telegram-login or: uv run scripts/login.py"
        "NOT_CONNECTED"
  | .invalidJson =>
      .exit "Corrupt session file. Re-run /telegram-login" "INVALID_SESSION"
  | .jsonVal v =>
      match v with
      | .pyObj kvs =>
          if !(pyObjGetD kvs "sessionString").truthy
              || !(pyObjGetD kvs "apiId").truthy
              || !(pyObjGetD kvs "apiHash").truthy then
            .exit "Invalid session file. Re-run /telegram-login" "INVALID_SESSION"
          else .ok (.pyObj kvs)
      | _ => .fault "AttributeError: no attribute get"

/-! ### Date parsing (`parse_date` / `parse_date_end_of_day`)

The stdlib parsers are modelled on the input shapes the scripts feed them:
`datetime.fromisoformat` restricted to `"YYYY-MM-DD"` and
`"YYYY-MM-DD[T ]HH:MM:SS"`, and `strptime(…, "%Y-%m-%d")` as the date-only
fallback.  `none` models a raised `ValueError`. -/

/-- A `datetime` value (naive fields plus whether `tzinfo` is UTC). -/
structure PyDateTime where
  year : Nat
  month : Nat
  day : Nat
  hour : Nat
  minute : Nat
  second : Nat
  tzUtc : Bool
deriving Repr, DecidableEq

/-- Split a character list on a separator character. -/
def splitOnChar (sep : Char) : List Char → List (List Char)
  | [] => [[]]
  | c :: rest =>
      let r := splitOnChar sep rest
      if c = sep then [] :: r
      else
        match r with
        | [] => [[c]]
        | g :: gs => (c :: g) :: gs

/-- Parse a non-empty all-digit character list as a natural number. -/
def digitsToNat? (cs : List Char) : Option Nat :=
  if cs.isEmpty ∨ ¬ cs.all (fun c => c.isDigit) then none
  else some (cs.foldl (fun acc c => 10 * acc + (c.toNat - '0'.toNat)) 0)

/-- Parse `"YYYY-MM-DD"` into year, month and day. -/
def parseDatePart (cs : List Char) : Option (Nat × Nat × Nat) :=
  match splitOnChar '-' cs with
  | [y, m, d] =>
      match digitsToNat? y, digitsToNat? m, digitsToNat? d with
      | some yn, some mn, some dn => some (yn, mn, dn)
      | _, _, _ => none
  | _ => none

/-- Parse `"HH:MM:SS"` into hour, minute and second. -/
def parseTimePart (cs : List Char) : Option (Nat × Nat × Nat) :=
  match splitOnChar ':' cs with
  | [h, m, s] =>
      match digitsToNat? h, digitsToNat? m, digitsToNat? s with
      | some hn, some mn, some sn => some (hn, mn, sn)
      | _, _, _ => none
  | _ => none

/-- Modelled from the spec: `datetime.fromisoformat` (Python stdlib, not
repository code), restricted to the date and date-`T`/space-time shapes the
spec exercises.  Yields a naive datetime (`tzUtc := false`). -/
def fromisoformat (s : String) : Option PyDateTime :=
  let parts := splitOnChar 'T' s.data
  let parts := if parts.length = 2 then parts else splitOnChar ' ' s.data
  match parts with
  | [d] =>
      (parseDatePart d).map (fun (y, m, dd) =>
        ⟨y, m, dd, 0, 0, 0, false⟩)
  | [d, t] =>
      match parseDatePart d, parseTimePart t with
      | some (y, m, dd), some (h, mi, se) => some ⟨y, m, dd, h, mi, se, false⟩
      | _, _ => none
  | _ => none

/-- `parse_date(date_str)`: `fromisoformat` with `tzinfo` replaced by UTC,
falling back to `strptime(date_str, "%Y-%m-%d")`; `none` models the
`ValueError` escaping when both fail. -/
def parse_date (date_str : String) : Option PyDateTime :=
  match fromisoformat date_str with
  | some dt => some { dt with tzUtc := true }
  | none =>
      (parseDatePart date_str.data).map (fun (y, m, d) =>
        ⟨y, m, d, 0, 0, 0, true⟩)

/-- `parse_date_end_of_day(date_str)`: on a date-only input (no `'T'` and
no `' '` in the string) set the time to `23:59:59`, otherwise return the
parsed datetime unchanged. -/
def parse_date_end_of_day (date_str : String) : Option PyDateTime :=
  (parse_date date_str).map (fun dt =>
    if !pyContainsChar date_str 'T' && !pyContainsChar date_str ' ' then
      { dt with hour := 23, minute := 59, second := 59 }
    else dt)

/-! ### Claim theorems -/

/-- Claim C6: for every prior watermark mapping and every batch of updates,
`set_watermarks_batch` leaves unchanged every entry whose chat id does not
occur in the batch, and replaces entirely (`lastMessageId`, `lastRunAt`,
`chatName`) every entry whose chat id does occur (with the values of the
batch's last update for that key). -/
theorem set_watermarks_batch_frame (now : String) (wm : Watermarks)
    (updates : List WatermarkUpdate) (k : String) :
    ((∀ u ∈ updates, pyStrOf u.chatId ≠ k) →
      dictGet (set_watermarks_batch now wm updates) k = dictGet wm k)
    ∧ (∀ u ∈ updates, pyStrOf u.chatId = k →
        ∃ u', u' ∈ updates ∧ pyStrOf u'.chatId = k ∧
          dictGet (set_watermarks_batch now wm updates) k
            = some ⟨u'.messageId, now, u'.chatName⟩) := by
  constructor
  · intro h
    rw [dictGet_set_watermarks_batch, lastUpdateFor_eq_none h]
  · intro u hu hk
    rcases lastUpdateFor_isSome hu hk with ⟨u', hu'⟩
    rcases lastUpdateFor_mem hu' with ⟨hmem, hkey⟩
    exact ⟨u', hmem, hkey, by rw [dictGet_set_watermarks_batch, hu']⟩

/-- Witness for C6, on the claim's own example: starting from
`{"111": {lastMessageId: 50}}`, an update batch for `"222"` only leaves
`"111"` untouched and writes `"222"`; an update batch for `"111"` replaces
its entry entirely. -/
theorem set_watermarks_batch_frame_witness :
    (dictGet (set_watermarks_batch "t1" [("111", ⟨50, "t0", some "Old"⟩)]
        [⟨.str "222", 200, none⟩]) "111"
      = dictGet [("111", ⟨50, "t0", some "Old"⟩)] "111")
    ∧ (∃ u', u' ∈ [(⟨.str "222", 200, none⟩ : WatermarkUpdate)]
        ∧ pyStrOf u'.chatId = "222"
        ∧ dictGet (set_watermarks_batch "t1" [("111", ⟨50, "t0", some "Old"⟩)]
            [⟨.str "222", 200, none⟩]) "222"
          = some ⟨u'.messageId, "t1", u'.chatName⟩)
    ∧ (∃ u', u' ∈ [(⟨.str "111", 999, some "New"⟩ : WatermarkUpdate)]
        ∧ pyStrOf u'.chatId = "111"
        ∧ dictGet (set_watermarks_batch "t1" [("111", ⟨50, "t0", some "Old"⟩)]
            [⟨.str "111", 999, some "New"⟩]) "111"
          = some ⟨u'.messageId, "t1", u'.chatName⟩) :=
  ⟨(set_watermarks_batch_frame "t1" [("111", ⟨50, "t0", some "Old"⟩)]
      [⟨.str "222", 200, none⟩] "111").1 (by decide),
   (set_watermarks_batch_frame "t1" [("111", ⟨50, "t0", some "Old"⟩)]
      [⟨.str "222", 200, none⟩] "222").2 ⟨.str "222", 200, none⟩ (by decide) rfl,
   (set_watermarks_batch_frame "t1" [("111", ⟨50, "t0", some "Old"⟩)]
      [⟨.str "111", 999, some "New"⟩] "111").2 ⟨.str "111", 999, some "New"⟩
      (by decide) rfl⟩

/-- Claim C10: every write to the watermark store keys the entry by
`str(chat_id)`, so a watermark set with the integer form of a chat id is
read back by `get_watermark` under either the integer or its decimal-string
form, for both `set_watermark` and `set_watermarks_batch`. -/
theorem watermark_key_normalization (now : String) (wm : Watermarks) (n : Int)
    (mid : Nat) (nm : Option String) :
    get_watermark (set_watermark now wm (.int n) mid nm) (.int n) = some mid
    ∧ get_watermark (set_watermark now wm (.int n) mid nm) (.str (toString n)) = some mid
    ∧ get_watermark (set_watermarks_batch now wm [⟨.int n, mid, nm⟩]) (.int n) = some mid
    ∧ get_watermark (set_watermarks_batch now wm [⟨.int n, mid, nm⟩])
        (.str (toString n)) = some mid := by
  refine ⟨?_, ?_, ?_, ?_⟩ <;>
    simp [get_watermark, set_watermark, set_watermarks_batch, pyStrOf,
      dictGet_dictSet_self]

/-- Claim C9: `parse_date_end_of_day` on a successfully parsed input with
neither `'T'` nor `' '` in it yields that date at 23:59:59 UTC; on an input
containing `'T'` it returns the parsed datetime unchanged (hour preserved);
and `parse_date` always stamps UTC. -/
theorem parse_date_end_of_day_spec (s : String) (dt : PyDateTime)
    (h : parse_date s = some dt) :
    dt.tzUtc = true
    ∧ (pyContainsChar s 'T' = false → pyContainsChar s ' ' = false →
        parse_date_end_of_day s
          = some { dt with hour := 23, minute := 59, second := 59 })
    ∧ (pyContainsChar s 'T' = true → parse_date_end_of_day s = some dt) := by
  refine ⟨?_, ?_, ?_⟩
  · unfold parse_date at h
    cases hf : fromisoformat s with
    | some dt0 => rw [hf] at h; injection h with h; rw [← h]
    | none =>
        rw [hf] at h
        cases hp : parseDatePart s.data with
        | some t =>
            rw [hp] at h
            obtain ⟨y, m, d⟩ := t
            injection h with h
            rw [← h]
        | none => rw [hp] at h; simp at h
  · intro h1 h2
    simp [parse_date_end_of_day, h, h1, h2]
  · intro h1
    simp [parse_date_end_of_day, h, h1]

/-- Witness for C9 at the claim's inputs: `"2026-02-10"` → 23:59:59 UTC on
that date, `"2026-02-10T08:00:00"` → 08:00:00 UTC unchanged. -/
theorem parse_date_end_of_day_spec_witness :
    parse_date_end_of_day "2026-02-10" = some ⟨2026, 2, 10, 23, 59, 59, true⟩
    ∧ parse_date_end_of_day "2026-02-10T08:00:00" = some ⟨2026, 2, 10, 8, 0, 0, true⟩ :=
  ⟨(parse_date_end_of_day_spec "2026-02-10" ⟨2026, 2, 10, 0, 0, 0, true⟩
      (by decide)).2.1 (by decide) (by decide),
   (parse_date_end_of_day_spec "2026-02-10T08:00:00" ⟨2026, 2, 10, 8, 0, 0, true⟩
      (by decide)).2.2 (by decide)⟩

/-- Claim C3: `cmd_sign_in` over an existing pending login: on success the
session is persisted and the pending login deleted; on password-needed the
pending login is kept with only its credential string updated and its phase
marker set to `"2fa"`, and the 2FA-required signal is returned; on
invalid-code the persisted state is unchanged; on code-expired the pending
login is deleted. -/
theorem sign_in_pending_effects (now code : String) (store : LoginStore)
    (p : PendingLogin) (hp : store.pending = some p) :
    (∀ s me, (cmd_sign_in now true (.success s me) code store).1
        = ⟨none, some ⟨p.apiId, p.apiHash, p.phone, s, now⟩⟩)
    ∧ (∀ ns, cmd_sign_in now true (.passwordNeeded ns) code store
        = (⟨some ⟨p.phone, p.phoneCodeHash, ns, p.apiId, p.apiHash, some "2fa"⟩,
            store.session⟩, .ok .twoFARequired))
    ∧ (cmd_sign_in now true .invalidCode code store).1 = store
    ∧ (cmd_sign_in now true .codeExpired code store).1
        = ⟨none, store.session⟩ := by
  obtain ⟨sp, ss⟩ := store
  simp only [LoginStore.mk.injEq] at hp ⊢
  subst hp
  refine ⟨fun s me => rfl, fun ns => rfl, rfl, rfl⟩

/-- Witness for C3 at a concrete pending login and service responses. -/
theorem sign_in_pending_effects_witness :
    (cmd_sign_in "t1" true (.success "fs" ⟨7, some "A", none, some "al"⟩) "12345"
        ⟨some ⟨"+1", "h", "s0", 4, "ah", none⟩, none⟩).1
      = ⟨none, some ⟨4, "ah", "+1", "fs", "t1"⟩⟩
    ∧ cmd_sign_in "t1" true (.passwordNeeded "s1") "12345"
        ⟨some ⟨"+1", "h", "s0", 4, "ah", none⟩, none⟩
      = (⟨some ⟨"+1", "h", "s1", 4, "ah", some "2fa"⟩, none⟩, .ok .twoFARequired)
    ∧ (cmd_sign_in "t1" true .invalidCode "12345"
        ⟨some ⟨"+1", "h", "s0", 4, "ah", none⟩, none⟩).1
      = ⟨some ⟨"+1", "h", "s0", 4, "ah", none⟩, none⟩
    ∧ (cmd_sign_in "t1" true .codeExpired "12345"
        ⟨some ⟨"+1", "h", "s0", 4, "ah", none⟩, none⟩).1
      = ⟨none, none⟩ :=
  ⟨(sign_in_pending_effects "t1" "12345" ⟨some ⟨"+1", "h", "s0", 4, "ah", none⟩, none⟩
      ⟨"+1", "h", "s0", 4, "ah", none⟩ rfl).1 "fs" ⟨7, some "A", none, some "al"⟩,
   (sign_in_pending_effects "t1" "12345" ⟨some ⟨"+1", "h", "s0", 4, "ah", none⟩, none⟩
      ⟨"+1", "h", "s0", 4, "ah", none⟩ rfl).2.1 "s1",
   (sign_in_pending_effects "t1" "12345" ⟨some ⟨"+1", "h", "s0", 4, "ah", none⟩, none⟩
      ⟨"+1", "h", "s0", 4, "ah", none⟩ rfl).2.2.1,
   (sign_in_pending_effects "t1" "12345" ⟨some ⟨"+1", "h", "s0", 4, "ah", none⟩, none⟩
      ⟨"+1", "h", "s0", 4, "ah", none⟩ rfl).2.2.2⟩

/-- Counterexample to claim C4 as stated: an invocation of `cmd_sign_in`
whose outcome is invalid-code does not discard the pending login — the
pending state is still present afterwards. -/
theorem sign_in_invalid_code_keeps_pending_cex :
    (cmd_sign_in "t1" true .invalidCode "12345"
        ⟨some ⟨"+1", "h", "s0", 4, "ah", none⟩, none⟩).1.pending ≠ none := by
  decide

/-- Claim C4 as amended: an invocation whose outcome is code-expired
discards the pending login (the user must restart from phase 1), while an
invocation whose outcome is invalid-code retains the persisted state
unchanged so the code may be retried. -/
theorem sign_in_failure_pending_effects (now code : String) (store : LoginStore)
    (p : PendingLogin) (hp : store.pending = some p) :
    (cmd_sign_in now true .codeExpired code store).1.pending = none
    ∧ (cmd_sign_in now true .invalidCode code store).1 = store := by
  obtain ⟨sp, ss⟩ := store
  simp only [LoginStore.mk.injEq] at hp ⊢
  subst hp
  exact ⟨rfl, rfl⟩

/-- Witness for amended C4 at a concrete pending login. -/
theorem sign_in_failure_pending_effects_witness :
    (cmd_sign_in "t2" true .codeExpired "99999"
        ⟨some ⟨"+2", "h2", "s2", 5, "ah2", none⟩, none⟩).1.pending = none
    ∧ (cmd_sign_in "t2" true .invalidCode "99999"
        ⟨some ⟨"+2", "h2", "s2", 5, "ah2", none⟩, none⟩).1
      = ⟨some ⟨"+2", "h2", "s2", 5, "ah2", none⟩, none⟩ :=
  sign_in_failure_pending_effects "t2" "99999"
    ⟨some ⟨"+2", "h2", "s2", 5, "ah2", none⟩, none⟩ ⟨"+2", "h2", "s2", 5, "ah2", none⟩ rfl

/-- Claim C5: `cmd_sign_in_2fa` with a loaded pending login whose phase
marker is not `"2fa"` fails with the NOT_IN_2FA error, independently of the
connection and of any service response (no network call), leaving the store
unchanged; with phase `"2fa"`, success persists the session, deletes the
pending login and returns the profile summary, and invalid-password leaves
the persisted state unchanged for retry. -/
theorem sign_in_2fa_effects (now pw : String) (store : LoginStore)
    (p : PendingLogin) (hp : store.pending = some p) :
    (p.phase ≠ some "2fa" → ∀ connectOk outcome,
      cmd_sign_in_2fa now connectOk outcome pw store
        = (store, .err "Not in 2FA state. Run 'login.py request-code' to start over."
            "NOT_IN_2FA"))
    ∧ (p.phase = some "2fa" →
        (∀ s me, cmd_sign_in_2fa now true (.success s me) pw store
            = (⟨none, some ⟨p.apiId, p.apiHash, p.phone, s, now⟩⟩,
               .ok (.signedIn p.phone (joinName me.firstName me.lastName)
                  me.username (toString me.id))))
        ∧ (cmd_sign_in_2fa now true .invalidPassword pw store).1 = store) := by
  obtain ⟨sp, ss⟩ := store
  simp only [LoginStore.mk.injEq] at hp
  subst hp
  constructor
  · intro hph connectOk outcome
    simp [cmd_sign_in_2fa, hph]
  · intro hph
    exact ⟨fun s me => by simp [cmd_sign_in_2fa, hph],
      by simp [cmd_sign_in_2fa, hph]⟩

/-- Witness for C5: a phase-1 pending login is rejected with NOT_IN_2FA
regardless of the oracle; a `"2fa"`-phase pending login signs in on
success and is kept on invalid password. -/
theorem sign_in_2fa_effects_witness :
    cmd_sign_in_2fa "t3" false (.otherError "boom") "pw"
        ⟨some ⟨"+3", "h3", "s3", 6, "ah3", none⟩, none⟩
      = (⟨some ⟨"+3", "h3", "s3", 6, "ah3", none⟩, none⟩,
         .err "Not in 2FA state. Run 'login.py request-code' to start over."
           "NOT_IN_2FA")
    ∧ cmd_sign_in_2fa "t3" true (.success "fs3" ⟨9, some "B", some "C", none⟩) "pw"
        ⟨some ⟨"+3", "h3", "s3", 6, "ah3", some "2fa"⟩, none⟩
      = (⟨none, some ⟨6, "ah3", "+3", "fs3", "t3"⟩⟩,
         .ok (.signedIn "+3" "B C" none "9"))
    ∧ (cmd_sign_in_2fa "t3" true .invalidPassword "pw"
        ⟨some ⟨"+3", "h3", "s3", 6, "ah3", some "2fa"⟩, none⟩).1
      = ⟨some ⟨"+3", "h3", "s3", 6, "ah3", some "2fa"⟩, none⟩ :=
  ⟨(sign_in_2fa_effects "t3" "pw" ⟨some ⟨"+3", "h3", "s3", 6, "ah3", none⟩, none⟩
      ⟨"+3", "h3", "s3", 6, "ah3", none⟩ rfl).1 (by decide) false (.otherError "boom"),
   (sign_in_2fa_effects "t3" "pw" ⟨some ⟨"+3", "h3", "s3", 6, "ah3", some "2fa"⟩, none⟩
      ⟨"+3", "h3", "s3", 6, "ah3", some "2fa"⟩ rfl).2 rfl |>.1 "fs3"
      ⟨9, some "B", some "C", none⟩,
   (sign_in_2fa_effects "t3" "pw" ⟨some ⟨"+3", "h3", "s3", 6, "ah3", some "2fa"⟩, none⟩
      ⟨"+3", "h3", "s3", 6, "ah3", some "2fa"⟩ rfl).2 rfl |>.2⟩

/-- Counterexample to claim C7 as stated: a session file whose content is
valid JSON of the wrong shape (a list) makes `load_session` hit
`data.get(...)` on a non-dict and raise an uncaught `AttributeError`
(only `json.JSONDecodeError` is handled) instead of a structured error. -/
theorem load_session_wrong_shape_faults :
    load_session_json (.jsonVal (.pyList []))
      = .fault "AttributeError: no attribute get" := rfl

/-- Claim C7 as amended: for a missing file or content that is not valid
JSON, the loaders never fault — `load_watermarks` and `get_watermark`
behave as on an empty store, and the pending/session loaders terminate
with their structured errors; moreover `load_pending` never faults on any
content, and on any top-level JSON object `get_watermark` and
`load_session` never fault either.  (Only a top-level non-object JSON
value can crash `get_watermark` and `load_session`.) -/
theorem loaders_missing_or_corrupt_safe :
    (∀ fc, fc = FileContent.absent ∨ fc = FileContent.invalidJson →
      load_watermarks_json fc = .pyObj []
      ∧ (∀ cid, get_watermark_json fc cid = .ok none)
      ∧ (∃ m, load_pending_json fc = .exit m "NO_PENDING")
      ∧ (∃ m c, load_session_json fc = .exit m c))
    ∧ (∀ fc m, load_pending_json fc ≠ .fault m)
    ∧ (∀ kvs cid, ∃ r, get_watermark_json (.jsonVal (.pyObj kvs)) cid = .ok r)
    ∧ (∀ kvs m, load_session_json (.jsonVal (.pyObj kvs)) ≠ .fault m) := by
  refine ⟨?_, ?_, ?_, ?_⟩
  · rintro fc (rfl | rfl) <;>
      exact ⟨rfl, fun cid => rfl, ⟨_, rfl⟩, ⟨_, _, rfl⟩⟩
  · intro fc m h
    cases fc <;> simp [load_pending_json] at h
  · intro kvs cid
    simp only [get_watermark_json, load_watermarks_json]
    cases dictGet kvs (pyStrOf cid) with
    | none => exact ⟨none, rfl⟩
    | some v =>
        cases v with
        | pyObj ekvs =>
            by_cases h : ekvs.isEmpty
            · exact ⟨none, by simp [h]⟩
            · exact ⟨dictGet ekvs "lastMessageId", by simp [h]⟩
        | pyNull => exact ⟨none, rfl⟩
        | pyBool b => exact ⟨none, rfl⟩
        | pyInt n => exact ⟨none, rfl⟩
        | pyStr s => exact ⟨none, rfl⟩
        | pyList xs => exact ⟨none, rfl⟩
  · intro kvs m h
    simp only [load_session_json] at h
    split at h <;> simp at h

/-- Witness for amended C7, at an unparsable file and a concrete object
store: every loader yields its structured result, never a fault. -/
theorem loaders_missing_or_corrupt_safe_witness :
    (load_watermarks_json .invalidJson = .pyObj []
      ∧ get_watermark_json .invalidJson (.str "111") = .ok none
      ∧ (∃ m, load_pending_json .invalidJson = .exit m "NO_PENDING")
      ∧ (∃ m c, load_session_json .invalidJson = .exit m c))
    ∧ (∃ r, get_watermark_json (.jsonVal (.pyObj [("111", .pyInt 5)])) (.int 111)
        = .ok r) :=
  ⟨(fun h => ⟨h.1, h.2.1 (.str "111"), h.2.2.1, h.2.2.2⟩)
      (loaders_missing_or_corrupt_safe.1 .invalidJson (Or.inr rfl)),
   loaders_missing_or_corrupt_safe.2.2.1 [("111", .pyInt 5)] (.int 111)⟩

/-- Claim C8: with a supplied (non-empty) chat filter, a dialog is a
digest candidate iff some filter term matches its display name
case-insensitively (exact or substring) or, `@`-stripped, equals its
(non-empty) username case-insensitively; with no filter, a dialog is a
candidate iff it has unread messages, or the include-read flag is set and
it has an existing watermark. -/
theorem digest_candidate_selection (chat_filter : List String)
    (include_read : Bool) (watermarks : Watermarks) (d : Dialog) :
    (chat_filter ≠ [] →
      (dialogSelected (some chat_filter) include_read watermarks d = true ↔
        ∃ f ∈ chat_filter,
          pyLower (chatNameOf d) = pyLower f
          ∨ strContainsSub (pyLower (chatNameOf d)) (pyLower f) = true
          ∨ ∃ u, d.username = some u ∧ u ≠ ""
              ∧ pyLower (lstripAt f) = pyLower u))
    ∧ (dialogSelected none include_read watermarks d = true ↔
        0 < d.unreadCount
        ∨ (include_read = true
            ∧ (dictGet watermarks (toString d.entityId)).isSome = true)) := by
  constructor
  · intro hne
    cases chat_filter with
    | nil => exact absurd rfl hne
    | cons f0 fs =>
        cases hu : d.username with
        | none => simp [dialogSelected, filterActive, filterTermMatch, hu]
        | some u =>
            by_cases hu0 : u = ""
            · subst hu0
              simp [dialogSelected, filterActive, filterTermMatch, hu]
            · simp [dialogSelected, filterActive, filterTermMatch, hu, hu0, or_assoc]
  · simp [dialogSelected, filterActive, and_comm]

/-- Witness for C8: a filtered run matches a dialog named "My Team" against
the term "team"; an unfiltered include-read run admits a fully-read dialog
that has a watermark. -/
theorem digest_candidate_selection_witness :
    (dialogSelected (some ["team"]) false [("111", ⟨50, "t0", none⟩)]
        ⟨222, some "My Team", some "tm", 0⟩ = true ↔
      ∃ f ∈ ["team"],
        pyLower (chatNameOf ⟨222, some "My Team", some "tm", 0⟩) = pyLower f
        ∨ strContainsSub (pyLower (chatNameOf ⟨222, some "My Team", some "tm", 0⟩))
            (pyLower f) = true
        ∨ ∃ u, (⟨222, some "My Team", some "tm", 0⟩ : Dialog).username = some u
            ∧ u ≠ "" ∧ pyLower (lstripAt f) = pyLower u)
    ∧ (dialogSelected none true [("111", ⟨50, "t0", none⟩)]
        ⟨111, some "Quiet", none, 0⟩ = true ↔
      0 < (⟨111, some "Quiet", none, 0⟩ : Dialog).unreadCount
      ∨ (true = true
          ∧ (dictGet ([("111", ⟨50, "t0", none⟩)] : Watermarks)
              (toString (⟨111, some "Quiet", none, 0⟩ : Dialog).entityId)).isSome
            = true)) :=
  ⟨(digest_candidate_selection ["team"] false [("111", ⟨50, "t0", none⟩)]
      ⟨222, some "My Team", some "tm", 0⟩).1 (by decide),
   (digest_candidate_selection ["team"] true [("111", ⟨50, "t0", none⟩)]
      ⟨111, some "Quiet", none, 0⟩).2⟩

/-- Claim C2: in a non-dry-run digest, every chat-id key that had a stored
watermark still has one afterwards, with a `lastMessageId` at least as
large — provided the fetch honours the `min_id` lower bound derived from
the stored watermark (every returned message id strictly exceeds a
supplied `min_id`). -/
theorem digest_watermark_monotone (now : String)
    (fetch : Int → Nat → Option Nat → FetchOutcome)
    (chat_filter : Option (List String)) (limit : Nat) (include_read : Bool)
    (dialogs : List Dialog) (wm : Watermarks) (k : String) (e : WatermarkEntry)
    (hfetch : ∀ eid minid msgs m w, fetch eid limit minid = .ok msgs → m ∈ msgs →
        minid = some w → w < m.id)
    (hk : dictGet wm k = some e) :
    ∃ e', dictGet
        (run_digest now fetch chat_filter limit include_read false dialogs wm).2 k
        = some e' ∧ e.lastMessageId ≤ e'.lastMessageId := by
  cases hempty : (selectChats chat_filter include_read wm dialogs).isEmpty with
  | true =>
      refine ⟨e, ?_, Nat.le_refl _⟩
      simpa [run_digest, hempty] using hk
  | false =>
      cases hupd : (processChats fetch limit
          (selectChats chat_filter include_read wm dialogs)).updates.isEmpty with
      | true =>
          refine ⟨e, ?_, Nat.le_refl _⟩
          simpa [run_digest, hempty, hupd] using hk
      | false =>
          have hwm2 :
              (run_digest now fetch chat_filter limit include_read false dialogs wm).2
                = set_watermarks_batch now wm (processChats fetch limit
                    (selectChats chat_filter include_read wm dialogs)).updates := by
            simp [run_digest, hempty, hupd]
          rw [hwm2, dictGet_set_watermarks_batch]
          cases hlast : lastUpdateFor k (processChats fetch limit
              (selectChats chat_filter include_read wm dialogs)).updates with
          | none => exact ⟨e, hk, Nat.le_refl _⟩
          | some u =>
              refine ⟨⟨u.messageId, now, u.chatName⟩, rfl, ?_⟩
              obtain ⟨hmem, hkey⟩ := lastUpdateFor_mem hlast
              obtain ⟨c, hcsel, msgs, hf, hne, huval⟩ := mem_updates_processChats hmem
              obtain ⟨d, _hd, hcd⟩ := mem_selectChats hcsel
              subst huval
              subst hcd
              have hid : toString d.entityId = k := hkey
              have hwmid : (mkSelChat wm d).watermarkMessageId = some e.lastMessageId := by
                show (dictGet wm (toString d.entityId)).map (·.lastMessageId) = _
                rw [hid, hk]
                rfl
              show e.lastMessageId ≤ pyMax (msgs.reverse.map Msg.id)
              by_cases hz : e.lastMessageId = 0
              · rw [hz]
                exact Nat.zero_le _
              · rw [hwmid] at hf
                simp only [minIdArg, hz, if_false] at hf
                have hne2 : msgs.reverse.map Msg.id ≠ [] := by simp [hne]
                rcases List.mem_map.mp (pyMax_mem _ hne2) with ⟨m, hm, hmax⟩
                have hlt := hfetch _ _ _ m e.lastMessageId hf
                  (List.mem_reverse.mp hm) rfl
                exact Nat.le_of_lt (hmax ▸ hlt)

/-- Witness for C2: a store holding watermark 5 for chat "111", one unread
dialog for that chat, and a fetch that returns one message just above any
supplied `min_id`; the persisted watermark stays at least 5. -/
theorem digest_watermark_monotone_witness :
    ∃ e', dictGet (run_digest "t1" (fun _ _ minid => .ok [⟨minid.getD 0 + 1⟩])
        none 100 false false [⟨111, some "Team A", none, 2⟩]
        [("111", ⟨5, "t0", some "A"⟩)]).2 "111"
      = some e' ∧ (5 : Nat) ≤ e'.lastMessageId :=
  digest_watermark_monotone "t1" (fun _ _ minid => .ok [⟨minid.getD 0 + 1⟩])
    none 100 false [⟨111, some "Team A", none, 2⟩] [("111", ⟨5, "t0", some "A"⟩)]
    "111" ⟨5, "t0", some "A"⟩
    (by
      intro eid minid msgs m w hfe hm hmin
      subst hmin
      injection hfe with h
      subst h
      simp at hm
      subst hm
      exact Nat.lt_succ_self w)
    (by decide)

/-- Claim C1: a digest run with no chat filter over a single dialog with
unread count 3 and no prior watermark, whose fetch returns 3 messages,
reports `totalNewMessages = 3` and exactly one chat entry, and (non-dry-run)
persists for that chat a watermark equal to the maximum message id among
the fetched messages. -/
theorem run_digest_single_unread_chat (now : String)
    (fetch : Int → Nat → Option Nat → FetchOutcome) (limit : Nat)
    (include_read : Bool) (d : Dialog) (msgs : List Msg)
    (hun : d.unreadCount = 3)
    (hf : fetch d.entityId limit none = .ok msgs)
    (hlen : msgs.length = 3) :
    ∃ out, (run_digest now fetch none limit include_read false [d] []).1 = .ran out
      ∧ out.totalNewMessages = 3
      ∧ out.chats.length = 1
      ∧ (dictGet (run_digest now fetch none limit include_read false [d] []).2
            (toString d.entityId)).map (·.lastMessageId)
          = some (pyMax (msgs.map Msg.id)) := by
  have hne : msgs.isEmpty = false := by
    cases msgs with
    | nil => simp at hlen
    | cons a l => rfl
  have hsel : selectChats none include_read ([] : Watermarks) [d] = [mkSelChat [] d] := by
    simp [selectChats, dialogSelected, filterActive, hun]
  have hproc : processChats fetch limit [mkSelChat ([] : Watermarks) d]
      = ⟨[.fetched (toString d.entityId) (chatNameOf d) d.username
            (msgs.reverse.map Msg.id) msgs.reverse.length none],
         [⟨.str (toString d.entityId), pyMax (msgs.reverse.map Msg.id),
            some (chatNameOf d)⟩],
         msgs.reverse.length + 0⟩ := by
    simp only [processChats]
    rw [show minIdArg (mkSelChat ([] : Watermarks) d).watermarkMessageId = none from rfl,
      show (mkSelChat ([] : Watermarks) d).dialog.entityId = d.entityId from rfl, hf]
    simp [hne, mkSelChat, dictGet]
  refine ⟨⟨[.fetched (toString d.entityId) (chatNameOf d) d.username
        (msgs.reverse.map Msg.id) msgs.reverse.length none],
      1, msgs.reverse.length + 0, true, false⟩, ?_, ?_, ?_, ?_⟩
  · simp [run_digest, hsel, hproc]
  · simp [hlen]
  · rfl
  · simp [run_digest, hsel, hproc, set_watermarks_batch, pyStrOf, dictGet,
      List.map_reverse, pyMax_reverse]

/-- Witness for C1: one dialog with unread count 3 and an empty watermark
store; the fetch returns messages 10, 12, 11, and the run reports 3 new
messages in one chat entry and persists watermark `pyMax [10, 12, 11]`. -/
theorem run_digest_single_unread_chat_witness :
    ∃ out, (run_digest "t1" (fun _ _ _ => .ok [⟨10⟩, ⟨12⟩, ⟨11⟩]) none 100
        false false [⟨111, some "Team", none, 3⟩] []).1 = .ran out
      ∧ out.totalNewMessages = 3
      ∧ out.chats.length = 1
      ∧ (dictGet (run_digest "t1" (fun _ _ _ => .ok [⟨10⟩, ⟨12⟩, ⟨11⟩]) none 100
            false false [⟨111, some "Team", none, 3⟩] []).2
            (toString (⟨111, some "Team", none, 3⟩ : Dialog).entityId)).map
            (·.lastMessageId)
          = some (pyMax ([⟨10⟩, ⟨12⟩, ⟨11⟩].map Msg.id)) :=
  run_digest_single_unread_chat "t1" (fun _ _ _ => .ok [⟨10⟩, ⟨12⟩, ⟨11⟩]) 100 false
    ⟨111, some "Team", none, 3⟩ [⟨10⟩, ⟨12⟩, ⟨11⟩] rfl rfl rfl
